import Mathlib

/-!
Verification of the HealthGuard backend API against its specification.

The definitions below are a shallow embedding of the Python modules under
`src/backend`.  Handlers are pure functions in the source (they read no
shared state), so each one becomes a Lean function; the wall-clock values
produced by `datetime.utcnow()` are passed in as an explicit `now`
parameter.  Floating-point literals from the source are represented as
rationals.  Components that the specification describes but that are absent
from the source tree (the Entity Store, Allocation Engine, Dispatch
Coordinator state machines, and the bounded-retry loop) are modelled
directly from the specification text; each such definition is marked
`Modelled from the spec:` in its doc comment.
-/

namespace HealthGuard

/-- HTTP methods appearing in the route decorators of the API modules. -/
inductive Method
  | get
  | post
  | patch
  | put
deriving DecidableEq, Repr, BEq

/-- A route declaration: the decorator method together with the decorated
path, relative to the mount prefix of the router. -/
structure Route where
  method : Method
  path : String
deriving DecidableEq, Repr, BEq

/-- Error taxonomy visible at the API boundary; handlers in the source can in
principle raise a 404 (`HTTPException`), represented as `NotFound`. -/
inductive ApiError
  | NotFound
deriving DecidableEq, Repr

/-- A latitude/longitude pair, as in the coordinate dicts of the source. -/
structure Coordinates where
  lat : ℚ
  lon : ℚ
deriving DecidableEq, Repr

/-! ## src/backend/api/v1/emergency.py -/

/-- Request model `TraumaRequest` from `emergency.py`. -/
structure TraumaRequest where
  incident_id : String
  patient_age : Nat
  patient_sex : String
  vital_signs : List (String × ℚ)
  injury_description : String
  mechanism_of_injury : String
  paramedic_assessment : String
  current_location : Coordinates
deriving DecidableEq, Repr

/-- One entry of the `alternatives` list of a `TraumaRecommendation`. -/
structure TraumaAlternative where
  facility_id : String
  facility_name : String
  eta_minutes : Nat
  confidence : ℚ
deriving DecidableEq, Repr

/-- Response model `TraumaRecommendation` from `emergency.py`. -/
structure TraumaRecommendation where
  facility_id : String
  facility_name : String
  facility_level : String
  estimated_eta_minutes : Nat
  confidence_score : ℚ
  reasoning : String
  alternatives : List TraumaAlternative
deriving DecidableEq, Repr

/-- Handler `route_trauma_patient` (`POST /trauma`): the body ignores the
request and returns the mock recommendation verbatim. -/
def route_trauma_patient (_request : TraumaRequest) : TraumaRecommendation :=
  { facility_id := "HOSP-001"
    facility_name := "Metro General Hospital"
    facility_level := "Level 1 Trauma Center"
    estimated_eta_minutes := 12
    confidence_score := (0.95 : ℚ)
    reasoning := "Patient has GCS 7 with penetrating chest trauma. Nearest Level 1 center with immediate surgical capability."
    alternatives :=
      [{ facility_id := "HOSP-002"
         facility_name := "City Medical Center"
         eta_minutes := 18
         confidence := (0.88 : ℚ) }] }

/-- The `message`-only payloads returned by the cardiac and stroke handlers. -/
structure MessagePayload where
  message : String
deriving DecidableEq, Repr

/-- Handler `route_cardiac_patient` (`POST /cardiac`): returns a fixed
placeholder message; the `request: dict` body is ignored. -/
def route_cardiac_patient (_request : List (String × String)) : MessagePayload :=
  { message := "Cardiac routing endpoint - coming soon" }

/-- Handler `route_stroke_patient` (`POST /stroke`): returns a fixed
placeholder message; the `request: dict` body is ignored. -/
def route_stroke_patient (_request : List (String × String)) : MessagePayload :=
  { message := "Stroke routing endpoint - coming soon" }

/-- The emergency API module keeps no case store: no handler in
`emergency.py` writes to any shared structure, so the module state carries
no fields. -/
structure EmergencyModuleState where
deriving DecidableEq, Repr

/-- An inbound request to one of the three routing endpoints of
`emergency.py`. -/
inductive EmergencyRequest
  | trauma (r : TraumaRequest)
  | cardiac (r : List (String × String))
  | stroke (r : List (String × String))
deriving DecidableEq, Repr

/-- Processing one routing request: each handler is a pure function and
leaves the (empty) module state unchanged. -/
def processEmergencyRequest (s : EmergencyModuleState) :
    EmergencyRequest → EmergencyModuleState
  | .trauma _ => s
  | .cardiac _ => s
  | .stroke _ => s

/-- Processing a whole sequence of routing requests. -/
def processEmergencyRequests (s : EmergencyModuleState)
    (rs : List EmergencyRequest) : EmergencyModuleState :=
  rs.foldl processEmergencyRequest s

/-- Payload of `GET /active` in `emergency.py`. -/
structure ActiveEmergencies where
  active_cases : List String
  timestamp : Nat
deriving DecidableEq, Repr

/-- Handler `get_active_emergencies` (`GET /active`): consults no state and
returns an empty `active_cases` list with the current timestamp. -/
def get_active_emergencies (_s : EmergencyModuleState) (now : Nat) :
    ActiveEmergencies :=
  { active_cases := [], timestamp := now }

/-- The complete route table declared by the router of `emergency.py`: the four
decorated paths, mounted under `/api/v1/emergency`. -/
def emergencyRoutes : List Route :=
  [⟨.post, "/trauma"⟩, ⟨.post, "/cardiac"⟩, ⟨.post, "/stroke"⟩,
   ⟨.get, "/active"⟩]

/-! ## src/backend/api/v1/hospitals.py -/

/-- Response model `BedAvailability` from `hospitals.py`. -/
structure BedAvailability where
  hospital_id : String
  hospital_name : String
  total_beds : Nat
  available_beds : Nat
  bed_type_breakdown : List (String × Nat)
  utilization_percentage : ℚ
  last_updated : Nat
deriving DecidableEq, Repr

/-- Handler `get_bed_availability` (`GET /beds`): ignores all three filter
parameters and returns the two mock records verbatim. -/
def get_bed_availability (_hospital_id _bed_type _region : Option String)
    (now : Nat) : List BedAvailability :=
  [{ hospital_id := "HOSP-001"
     hospital_name := "Metro General Hospital"
     total_beds := 450
     available_beds := 32
     bed_type_breakdown :=
       [("icu", 5), ("step_down", 8), ("medical_surgical", 15),
        ("telemetry", 4)]
     utilization_percentage := (92.9 : ℚ)
     last_updated := now },
   { hospital_id := "HOSP-002"
     hospital_name := "City Medical Center"
     total_beds := 380
     available_beds := 48
     bed_type_breakdown :=
       [("icu", 8), ("step_down", 12), ("medical_surgical", 22),
        ("telemetry", 6)]
     utilization_percentage := (87.4 : ℚ)
     last_updated := now }]

/-- The `location` dict of the mock `Hospital` payload. -/
structure HospitalLocation where
  address : String
  city : String
  state : String
  zip : String
  coordinates : Coordinates
deriving DecidableEq, Repr

/-- The `contact` dict of the mock `Hospital` payload. -/
structure HospitalContact where
  phone : String
  emergency : String
deriving DecidableEq, Repr

/-- Response model `Hospital` from `hospitals.py`. -/
structure Hospital where
  id : String
  name : String
  level : String
  capabilities : List String
  location : HospitalLocation
  contact : HospitalContact
deriving DecidableEq, Repr

/-- Handler `get_hospital_details` (`GET /{hospital_id}`): for every id it
returns the fixed mock hospital, echoing the given id into the `id` field;
no code path produces an error. -/
def get_hospital_details (hospital_id : String) : Except ApiError Hospital :=
  .ok
    { id := hospital_id
      name := "Metro General Hospital"
      level := "Level 1 Trauma Center"
      capabilities :=
        ["trauma_surgery", "neurosurgery", "cardiac_cath_lab",
         "stroke_center", "burn_unit", "nicu", "picu"]
      location :=
        { address := "123 Medical Plaza"
          city := "Metro City"
          state := "MC"
          zip := "12345"
          coordinates := { lat := (40.7128 : ℚ), lon := (-74.0060 : ℚ) } }
      contact := { phone := "555-0100", emergency := "555-0911" } }

/-- One element of the `hospitals` list returned by `list_hospitals`. -/
structure HospitalSummary where
  id : String
  name : String
deriving DecidableEq, Repr

/-- Payload of `GET /` in `hospitals.py`. -/
structure HospitalList where
  hospitals : List HospitalSummary
  total : Nat
deriving DecidableEq, Repr

/-- Handler `list_hospitals` (`GET /`): ignores the `region` and `level`
query parameters and returns the fixed two-hospital payload. -/
def list_hospitals (_region _level : Option String) : HospitalList :=
  { hospitals :=
      [⟨"HOSP-001", "Metro General Hospital"⟩,
       ⟨"HOSP-002", "City Medical Center"⟩]
    total := 2 }

/-! ## src/backend/api/v1/ambulances.py -/

/-- Response model `AmbulanceLocation` from `ambulances.py`;
`status` is a free string in the source. -/
structure AmbulanceLocation where
  ambulance_id : String
  unit_number : String
  status : String
  location : Coordinates
  crew : List String
  last_updated : Nat
deriving DecidableEq, Repr

/-- Handler `get_active_ambulances` (`GET /active`): returns the two mock
units verbatim. -/
def get_active_ambulances (now : Nat) : List AmbulanceLocation :=
  [{ ambulance_id := "AMB-001"
     unit_number := "Medic 15"
     status := "available"
     location := { lat := (40.7589 : ℚ), lon := (-73.9851 : ℚ) }
     crew := ["Paramedic Johnson", "EMT Smith"]
     last_updated := now },
   { ambulance_id := "AMB-002"
     unit_number := "Medic 23"
     status := "transporting"
     location := { lat := (40.7128 : ℚ), lon := (-74.0060 : ℚ) }
     crew := ["Paramedic Davis", "EMT Wilson"]
     last_updated := now }]

/-- Request model `RouteRequest` from `ambulances.py`. -/
structure RouteRequest where
  ambulance_id : String
  pickup_location : Coordinates
  destination_hospital_id : String
  patient_acuity : String
  traffic_consideration : Bool
deriving DecidableEq, Repr

/-- One entry of `alternative_routes` in a `RouteRecommendation`. -/
structure AlternativeRoute where
  route_id : String
  eta_minutes : Nat
  distance_miles : ℚ
  description : String
deriving DecidableEq, Repr

/-- Response model `RouteRecommendation` from `ambulances.py`. -/
structure RouteRecommendation where
  route_id : String
  estimated_time_minutes : Nat
  distance_miles : ℚ
  route_coordinates : List Coordinates
  traffic_conditions : String
  alternative_routes : List AlternativeRoute
deriving DecidableEq, Repr

/-- Handler `calculate_route` (`POST /route`): ignores the request body and
returns the fixed mock route. -/
def calculate_route (_request : RouteRequest) : RouteRecommendation :=
  { route_id := "ROUTE-12345"
    estimated_time_minutes := 12
    distance_miles := (5.3 : ℚ)
    route_coordinates :=
      [{ lat := (40.7589 : ℚ), lon := (-73.9851 : ℚ) },
       { lat := (40.7484 : ℚ), lon := (-73.9857 : ℚ) },
       { lat := (40.7128 : ℚ), lon := (-74.0060 : ℚ) }]
    traffic_conditions := "moderate"
    alternative_routes :=
      [{ route_id := "ALT-1"
         eta_minutes := 15
         distance_miles := (6.1 : ℚ)
         description := "Via highway - longer but faster" }] }

/-- Payload of `GET /{ambulance_id}` in `ambulances.py`. -/
structure AmbulanceDetails where
  ambulance_id : String
  unit_number : String
  status : String
  equipment : List String
deriving DecidableEq, Repr

/-- Handler `get_ambulance_details` (`GET /{ambulance_id}`): for every id it
returns the fixed mock unit, echoing the given id; no code path produces an
error. -/
def get_ambulance_details (ambulance_id : String) :
    Except ApiError AmbulanceDetails :=
  .ok
    { ambulance_id := ambulance_id
      unit_number := "Medic 15"
      status := "available"
      equipment :=
        ["AED", "Advanced_Airway", "Cardiac_Monitor", "IV_Supplies"] }

/-! ## src/backend/main.py -/

/-- An observable action the application can perform during its lifespan or
request handling: a log line, or a call into `db/database.py`. -/
inductive AppAction
  | logInfo (msg : String)
  | initDb
  | getDb
deriving DecidableEq, Repr

/-- Whether an action is a call into the database module. -/
def AppAction.isDbCall : AppAction → Bool
  | .logInfo _ => false
  | .initDb => true
  | .getDb => true

/-- The startup half of `lifespan` in `main.py`: two log lines; the
`await init_db()` call is commented out in the source. -/
def lifespanStartupActions : List AppAction :=
  [.logInfo "🚀 Starting HealthGuard Backend API...",
   .logInfo "✅ HealthGuard Backend API started (DB init skipped for local dev)"]

/-- The shutdown half of `lifespan` in `main.py`: one log line. -/
def lifespanShutdownActions : List AppAction :=
  [.logInfo "👋 Shutting down HealthGuard Backend API..."]

/-! ## Components described by the specification but absent from the source
tree.  The repository contains no Entity Store, Allocation Engine, state
machine, or retry loop; the definitions below are modelled from the
specification text. -/

/-- Modelled from the spec: the per-(hospital, bed-type) capacity slot of
the Entity Store, extended with the count of active (unreleased)
`BedAllocation` rows for that slot; the repository has no Entity Store. -/
structure Capacity where
  total : Nat
  available : Nat
  active : Nat
deriving DecidableEq, Repr

/-- Modelled from the spec: the capacity invariant — active allocations and
remaining availability never exceed the total of the slot. -/
abbrev CapacityInv (c : Capacity) : Prop :=
  c.active + c.available ≤ c.total

/-- Modelled from the spec: the transactional bed reservation of the
Allocation Engine — decrement `available` and record one active allocation;
when no bed is available the reservation is refused; the repository has no
Allocation Engine. -/
def allocateBed (c : Capacity) : Option Capacity :=
  if c.available = 0 then none
  else some { c with available := c.available - 1, active := c.active + 1 }

/-- Modelled from the spec: releasing a held allocation (`released_at` set)
returns the bed to availability. -/
def releaseBed (c : Capacity) : Option Capacity :=
  if c.active = 0 then none
  else some { c with active := c.active - 1, available := c.available + 1 }

/-- Modelled from the spec: the ambulance status enum of §4.3; the source
only mentions these values in a comment on a free-form string field. -/
inductive AmbStatus
  | available
  | dispatched
  | enroute
  | on_scene
  | transporting
  | out_of_service
deriving DecidableEq, Repr

/-- Modelled from the spec: the ambulance transition table — the cycle
available → dispatched → enroute → on_scene → transporting → available,
`out_of_service` reachable from every other state, and `out_of_service`
returning only to `available`. -/
def ambTransitionAllowed : AmbStatus → AmbStatus → Bool
  | .out_of_service, .available => true
  | .out_of_service, _ => false
  | _, .out_of_service => true
  | .available, .dispatched => true
  | .dispatched, .enroute => true
  | .enroute, .on_scene => true
  | .on_scene, .transporting => true
  | .transporting, .available => true
  | _, _ => false

/-- Modelled from the spec: the EmergencyCase status enum of §4.2; the
repository has no Dispatch Coordinator. -/
inductive CaseStatus
  | intake
  | triaged
  | bed_requested
  | bed_allocated
  | ambulance_assigned
  | en_route
  | at_hospital
  | resolved
  | cancelled
deriving DecidableEq, Repr

/-- Modelled from the spec: `resolved` and `cancelled` are the terminal
case states. -/
def caseTerminal : CaseStatus → Bool
  | .resolved => true
  | .cancelled => true
  | _ => false

/-- Modelled from the spec: the EmergencyCase transition table — the chain
intake → triaged → bed_requested → bed_allocated → ambulance_assigned →
en_route → at_hospital → resolved, plus `cancelled` reachable from every
non-terminal state. -/
def caseTransitionAllowed : CaseStatus → CaseStatus → Bool
  | .intake, .triaged => true
  | .triaged, .bed_requested => true
  | .bed_requested, .bed_allocated => true
  | .bed_allocated, .ambulance_assigned => true
  | .ambulance_assigned, .en_route => true
  | .en_route, .at_hospital => true
  | .at_hospital, .resolved => true
  | s, .cancelled => !(caseTerminal s)
  | _, _ => false

/-- The error surfaced on an illegal state-machine edge. -/
inductive TransitionError
  | InvalidTransition
deriving DecidableEq, Repr

/-- An emergency case as the transition API sees it: its current status and
its append-only timeline (here, the sequence of executed edges). -/
structure CaseRecord where
  status : CaseStatus
  timeline : List (CaseStatus × CaseStatus)
deriving DecidableEq, Repr

/-- Modelled from the spec: the case transition API — validate that the
edge is in the table, then move to the target state and append exactly one
timeline entry; otherwise fail with `InvalidTransition`. -/
def applyCaseTransition (c : CaseRecord) (target : CaseStatus) :
    Except TransitionError CaseRecord :=
  if caseTransitionAllowed c.status target then
    .ok { status := target, timeline := c.timeline ++ [(c.status, target)] }
  else .error .InvalidTransition

/-- An ambulance as the transition API sees it: current status plus the
sequence of executed edges. -/
structure AmbRecord where
  status : AmbStatus
  timeline : List (AmbStatus × AmbStatus)
deriving DecidableEq, Repr

/-- Modelled from the spec: the ambulance transition API, same discipline
as the case transition API. -/
def applyAmbTransition (a : AmbRecord) (target : AmbStatus) :
    Except TransitionError AmbRecord :=
  if ambTransitionAllowed a.status target then
    .ok { status := target, timeline := a.timeline ++ [(a.status, target)] }
  else .error .InvalidTransition

/-- Outcome of one allocation attempt against the Entity Store. -/
inductive AllocOutcome (α : Type)
  | ok (a : α)
  | NoCapacity
  | Conflict
deriving DecidableEq, Repr

/-- Result of a bounded-retry allocation run. -/
inductive AllocResult (α : Type)
  | ok (a : α)
  | NoCapacity
  | AllocationFailed
deriving DecidableEq, Repr

/-- Modelled from the spec: the bounded-retry allocation loop of §5 —
attempt `i` is retried only on `Conflict`, at most `fuel` attempts are
made, and exhaustion surfaces `AllocationFailed`.  Returns the result
together with the number of attempts actually made. -/
def allocRunAux {α : Type} (attempt : Nat → AllocOutcome α) (i : Nat) :
    Nat → AllocResult α × Nat
  | 0 => (.AllocationFailed, 0)
  | fuel + 1 =>
    match attempt i with
    | .ok a => (.ok a, 1)
    | .NoCapacity => (.NoCapacity, 1)
    | .Conflict =>
      let r := allocRunAux attempt (i + 1) fuel
      (r.1, r.2 + 1)

/-- Modelled from the spec: the result of an allocation with at most
`maxAttempts` attempts. -/
def allocateWithRetry {α : Type} (attempt : Nat → AllocOutcome α)
    (maxAttempts : Nat) : AllocResult α :=
  (allocRunAux attempt 0 maxAttempts).1

/-- Modelled from the spec: the number of attempts an allocation run
actually makes. -/
def allocationAttemptsMade {α : Type} (attempt : Nat → AllocOutcome α)
    (maxAttempts : Nat) : Nat :=
  (allocRunAux attempt 0 maxAttempts).2

/-- Modelled from the spec: a candidate hospital as the bed-selection
algorithm of §4.3 sees it (already filtered to diversion-free, capable
hospitals with available beds). -/
structure CandidateHospital where
  id : String
  distance : ℚ
  available_beds : Nat
  capability_bonus : ℚ
deriving DecidableEq, Repr

/-- Modelled from the spec: the composite ranking score
`w1 * distance + w2 * (1 / available_beds) + w3 * capability_match_bonus`. -/
def bedScore (w1 w2 w3 : ℚ) (h : CandidateHospital) : ℚ :=
  w1 * h.distance + w2 * (1 / (h.available_beds : ℚ)) + w3 * h.capability_bonus

/-- Modelled from the spec: strict preference between candidates — strictly
smaller score, or equal score and lexicographically smaller id. -/
def bedPreferred (w1 w2 w3 : ℚ) (a b : CandidateHospital) : Bool :=
  decide (bedScore w1 w2 w3 a < bedScore w1 w2 w3 b) ||
    (decide (bedScore w1 w2 w3 a = bedScore w1 w2 w3 b) &&
      decide (a.id < b.id))

/-- One comparison step of the ranking scan: keep the running best unless
the new candidate is strictly preferred. -/
def bedStep (w1 w2 w3 : ℚ) (best x : CandidateHospital) :
    CandidateHospital :=
  if bedPreferred w1 w2 w3 x best then x else best

/-- Modelled from the spec: pick the minimum-score candidate, ties broken
by ascending id; `none` on an empty candidate list. -/
def selectBed (w1 w2 w3 : ℚ) : List CandidateHospital →
    Option CandidateHospital
  | [] => none
  | h :: hs => some (hs.foldl (bedStep w1 w2 w3) h)

/-! ## Theorems -/

/-- Claim C1: every bed-availability record the program reports satisfies
`available_beds ≤ total_beds` (the lower bound `0 ≤ available_beds` holds
because availability is a natural number), and the spec-modelled
allocation/release steps preserve the capacity invariant, so active
allocations never exceed the total of the bed type and every capacity entry
keeps `available ≤ total`. -/
theorem no_overbooking_invariant :
    (∀ (hid bt reg : Option String) (now : Nat),
      ∀ r ∈ get_bed_availability hid bt reg now,
        r.available_beds ≤ r.total_beds) ∧
    (∀ c c' : Capacity, CapacityInv c → allocateBed c = some c' →
      CapacityInv c' ∧ c'.active ≤ c'.total ∧ c'.available ≤ c'.total) ∧
    (∀ c c' : Capacity, CapacityInv c → releaseBed c = some c' →
      CapacityInv c' ∧ c'.active ≤ c'.total ∧ c'.available ≤ c'.total) := by
  refine ⟨?_, ?_, ?_⟩
  · intro hid bt reg now r hr
    simp only [get_bed_availability, List.mem_cons, List.mem_singleton,
      List.not_mem_nil, or_false] at hr
    rcases hr with rfl | rfl <;> norm_num
  · intro c c' hinv halloc
    unfold allocateBed at halloc
    split at halloc
    · exact absurd halloc (by simp)
    · rename_i hav
      simp only [Option.some.injEq] at halloc
      subst halloc
      refine ⟨?_, ?_, ?_⟩ <;> simp only [CapacityInv] at hinv ⊢ <;> omega
  · intro c c' hinv hrel
    unfold releaseBed at hrel
    split at hrel
    · exact absurd hrel (by simp)
    · rename_i hac
      simp only [Option.some.injEq] at hrel
      subst hrel
      refine ⟨?_, ?_, ?_⟩ <;> simp only [CapacityInv] at hinv ⊢ <;> omega

/-- Concrete instantiation of `no_overbooking_invariant`: the first reported
record, one allocation on a slot with one free bed, and one release. -/
theorem no_overbooking_invariant_witness :
    ((get_bed_availability none none none 0).head? =
        some ⟨"HOSP-001", "Metro General Hospital", 450, 32,
          [("icu", 5), ("step_down", 8), ("medical_surgical", 15),
           ("telemetry", 4)], (92.9 : ℚ), 0⟩ ∧
      (32 : Nat) ≤ 450) ∧
    (CapacityInv ⟨2, 1, 1⟩ ∧ allocateBed ⟨2, 1, 1⟩ = some ⟨2, 0, 2⟩ ∧
      (CapacityInv ⟨2, 0, 2⟩ ∧ (2 : Nat) ≤ 2 ∧ (0 : Nat) ≤ 2)) ∧
    (CapacityInv ⟨2, 0, 2⟩ ∧ releaseBed ⟨2, 0, 2⟩ = some ⟨2, 1, 1⟩ ∧
      (CapacityInv ⟨2, 1, 1⟩ ∧ (1 : Nat) ≤ 2 ∧ (1 : Nat) ≤ 2)) :=
  ⟨⟨rfl,
    no_overbooking_invariant.1 none none none 0
      ⟨"HOSP-001", "Metro General Hospital", 450, 32,
        [("icu", 5), ("step_down", 8), ("medical_surgical", 15),
         ("telemetry", 4)], (92.9 : ℚ), 0⟩
      (by exact List.mem_cons_self _ _)⟩,
   ⟨by decide, by decide,
    no_overbooking_invariant.2.1 ⟨2, 1, 1⟩ ⟨2, 0, 2⟩ (by decide) (by decide)⟩,
   ⟨by decide, by decide,
    no_overbooking_invariant.2.2 ⟨2, 0, 2⟩ ⟨2, 1, 1⟩ (by decide) (by decide)⟩⟩

/-- Claim C2 is refuted by the code: for an unknown hospital or ambulance
id the detail handlers do not fail with `NotFound`; they succeed and return
a fabricated payload that echoes the unknown id.  The test
`test_get_nonexistent_hospital` expects a 404 here, so this is a divergence
between the code and its tests. -/
theorem lookup_fabricates_for_unknown_id :
    get_hospital_details "nonexistent_hospital" ≠ .error .NotFound ∧
    (get_hospital_details "nonexistent_hospital").toOption.map Hospital.id =
      some "nonexistent_hospital" ∧
    get_ambulance_details "AMB-404" ≠ .error .NotFound ∧
    (get_ambulance_details "AMB-404").toOption.map
      AmbulanceDetails.ambulance_id = some "AMB-404" := by
  refine ⟨by simp [get_hospital_details], rfl,
    by simp [get_ambulance_details], rfl⟩

/-- Claim C3: trauma routing (and ambulance route calculation) is a
hard-coded constant — any two requests produce identical recommendations,
and the confidence score is always 0.95, independent of vital signs, age
and location. -/
theorem trauma_routing_constant :
    (∀ r1 r2 : TraumaRequest,
      route_trauma_patient r1 = route_trauma_patient r2) ∧
    (∀ r : TraumaRequest,
      (route_trauma_patient r).confidence_score = (0.95 : ℚ)) ∧
    (∀ q1 q2 : RouteRequest, calculate_route q1 = calculate_route q2) :=
  ⟨fun _ _ => rfl, fun _ => rfl, fun _ _ => rfl⟩

/-- Claim C4 is refuted by the code: the emergency router declares exactly
the four routes `/trauma`, `/cardiac`, `/stroke` (POST) and `/active`
(GET); no POST route exists at the router root (or at `/create`), so a
POST to `/emergency` is unhandled and can never return 201 with a case id
in state `intake`.  The test of the repository named
`test_create_emergency_case_valid` expects such an endpoint. -/
theorem no_emergency_intake_route :
    emergencyRoutes =
      [⟨.post, "/trauma"⟩, ⟨.post, "/cardiac"⟩, ⟨.post, "/stroke"⟩,
       ⟨.get, "/active"⟩] ∧
    emergencyRoutes.all
      (fun r => !(r.method == Method.post &&
        (r.path == "/" || r.path == "" || r.path == "/create"))) = true :=
  ⟨rfl, by decide⟩

/-- Claim C6: no action performed by the lifespan of the application (startup or
shutdown) is a call into the database module — `init_db` is never invoked
by the live application. -/
theorem lifespan_never_calls_db :
    ((lifespanStartupActions ++ lifespanShutdownActions).all
      (fun a => !a.isDbCall)) = true := by decide

/-- Claim C9: `get_active_emergencies` always reports an empty
`active_cases` list, no matter which trauma, cardiac, or stroke routing
requests were processed before — no intake is ever recorded. -/
theorem active_emergencies_always_empty :
    ∀ (rs : List EmergencyRequest) (now : Nat),
      get_active_emergencies (processEmergencyRequests ⟨⟩ rs) now =
        { active_cases := [], timestamp := now } :=
  fun _ _ => rfl

/-- Claim C10: the hospital-list handler ignores its `region` and `level`
query parameters entirely — every parameter combination yields the same
fixed payload, whose `total` field equals the length of its `hospitals`
list (namely 2). -/
theorem list_hospitals_filter_noninterference :
    ∀ r1 l1 r2 l2 : Option String,
      list_hospitals r1 l1 = list_hospitals r2 l2 ∧
      (list_hospitals r1 l1).total =
        (list_hospitals r1 l1).hospitals.length ∧
      (list_hospitals r1 l1).total = 2 :=
  fun _ _ _ _ => ⟨rfl, rfl, rfl⟩

/-- Claim C5: for both state machines, a transition whose
(current, target) pair is outside the table fails with
`InvalidTransition`; a pair inside the table succeeds, moves to the target
state, and appends exactly one timeline entry.  In particular the direct
edge `available → on_scene` is illegal for ambulances. -/
theorem state_machine_legality :
    (∀ (c : CaseRecord) (t : CaseStatus),
      (caseTransitionAllowed c.status t = false →
        applyCaseTransition c t = .error .InvalidTransition) ∧
      (caseTransitionAllowed c.status t = true →
        applyCaseTransition c t =
          .ok ⟨t, c.timeline ++ [(c.status, t)]⟩ ∧
        (c.timeline ++ [(c.status, t)]).length = c.timeline.length + 1)) ∧
    (∀ (a : AmbRecord) (t : AmbStatus),
      (ambTransitionAllowed a.status t = false →
        applyAmbTransition a t = .error .InvalidTransition) ∧
      (ambTransitionAllowed a.status t = true →
        applyAmbTransition a t = .ok ⟨t, a.timeline ++ [(a.status, t)]⟩ ∧
        (a.timeline ++ [(a.status, t)]).length = a.timeline.length + 1)) ∧
    ambTransitionAllowed .available .on_scene = false := by
  refine ⟨?_, ?_, by decide⟩
  · intro c t
    refine ⟨fun hf => ?_, fun ht => ⟨?_, by simp⟩⟩
    · simp [applyCaseTransition, hf]
    · simp [applyCaseTransition, ht]
  · intro a t
    refine ⟨fun hf => ?_, fun ht => ⟨?_, by simp⟩⟩
    · simp [applyAmbTransition, hf]
    · simp [applyAmbTransition, ht]

/-- Concrete instantiations of `state_machine_legality`: an illegal and a
legal edge for each state machine. -/
theorem state_machine_legality_witness :
    (caseTransitionAllowed CaseStatus.resolved CaseStatus.triaged = false ∧
      applyCaseTransition ⟨.resolved, []⟩ .triaged =
        .error .InvalidTransition) ∧
    (caseTransitionAllowed CaseStatus.intake CaseStatus.triaged = true ∧
      (applyCaseTransition ⟨.intake, []⟩ .triaged =
        .ok ⟨.triaged,
          ([] : List (CaseStatus × CaseStatus)) ++
            [(CaseStatus.intake, CaseStatus.triaged)]⟩ ∧
       (([] : List (CaseStatus × CaseStatus)) ++
         [(CaseStatus.intake, CaseStatus.triaged)]).length =
         List.length ([] : List (CaseStatus × CaseStatus)) + 1)) ∧
    (ambTransitionAllowed AmbStatus.available AmbStatus.on_scene = false ∧
      applyAmbTransition ⟨.available, []⟩ .on_scene =
        .error .InvalidTransition) ∧
    (ambTransitionAllowed AmbStatus.available AmbStatus.dispatched = true ∧
      (applyAmbTransition ⟨.available, []⟩ .dispatched =
        .ok ⟨.dispatched,
          ([] : List (AmbStatus × AmbStatus)) ++
            [(AmbStatus.available, AmbStatus.dispatched)]⟩ ∧
       (([] : List (AmbStatus × AmbStatus)) ++
         [(AmbStatus.available, AmbStatus.dispatched)]).length =
         List.length ([] : List (AmbStatus × AmbStatus)) + 1)) :=
  ⟨⟨by decide,
    (state_machine_legality.1 ⟨.resolved, []⟩ .triaged).1 (by decide)⟩,
   ⟨by decide,
    (state_machine_legality.1 ⟨.intake, []⟩ .triaged).2 (by decide)⟩,
   ⟨by decide,
    (state_machine_legality.2.1 ⟨.available, []⟩ .on_scene).1 (by decide)⟩,
   ⟨by decide,
    (state_machine_legality.2.1 ⟨.available, []⟩ .dispatched).2
      (by decide)⟩⟩

/-- When every attempt conflicts, the retry loop burns all its fuel and
fails. -/
theorem allocRunAux_all_conflict {α : Type} (attempt : Nat → AllocOutcome α)
    (h : ∀ k, attempt k = .Conflict) :
    ∀ (fuel i : Nat), allocRunAux attempt i fuel = (.AllocationFailed, fuel) := by
  intro fuel
  induction fuel with
  | zero => intro i; rfl
  | succ n ih =>
    intro i
    simp only [allocRunAux, h i, ih (i + 1)]

/-- The retry loop never makes more attempts than its fuel allows. -/
theorem allocRunAux_count_le {α : Type} (attempt : Nat → AllocOutcome α) :
    ∀ (fuel i : Nat), (allocRunAux attempt i fuel).2 ≤ fuel := by
  intro fuel
  induction fuel with
  | zero => intro i; simp [allocRunAux]
  | succ n ih =>
    intro i
    unfold allocRunAux
    cases h : attempt i with
    | ok a => exact Nat.succ_le_succ (Nat.zero_le n)
    | NoCapacity => exact Nat.succ_le_succ (Nat.zero_le n)
    | Conflict =>
      have hle := ih (i + 1)
      show (allocRunAux attempt (i + 1) n).2 + 1 ≤ n + 1
      omega

/-- Claim C7: the bounded-retry allocation loop is a total function; when
every attempt returns `Conflict` it makes exactly the configured maximum
number of attempts and then surfaces `AllocationFailed`, and in every run
the number of attempts made is at most the configured maximum. -/
theorem bounded_retry_termination :
    (∀ (α : Type) (attempt : Nat → AllocOutcome α) (maxAttempts : Nat),
      (∀ k, attempt k = .Conflict) →
        allocateWithRetry attempt maxAttempts = .AllocationFailed ∧
        allocationAttemptsMade attempt maxAttempts = maxAttempts) ∧
    (∀ (α : Type) (attempt : Nat → AllocOutcome α) (maxAttempts : Nat),
      allocationAttemptsMade attempt maxAttempts ≤ maxAttempts) := by
  constructor
  · intro α attempt maxAttempts h
    unfold allocateWithRetry allocationAttemptsMade
    rw [allocRunAux_all_conflict attempt h maxAttempts 0]
    exact ⟨rfl, rfl⟩
  · intro α attempt maxAttempts
    exact allocRunAux_count_le attempt maxAttempts 0

/-- An attempt function that always conflicts, for instantiating
`bounded_retry_termination`. -/
def constConflict : Nat → AllocOutcome Nat := fun _ => .Conflict

/-- Concrete instantiation of `bounded_retry_termination` with three
configured attempts, all conflicting. -/
theorem bounded_retry_termination_witness :
    (∀ k : Nat, constConflict k = .Conflict) ∧
    (allocateWithRetry constConflict 3 = .AllocationFailed ∧
      allocationAttemptsMade constConflict 3 = 3) ∧
    allocationAttemptsMade constConflict 3 ≤ 3 :=
  ⟨fun _ => rfl,
   bounded_retry_termination.1 Nat constConflict 3 (fun _ => rfl),
   bounded_retry_termination.2 Nat constConflict 3⟩

/-- The strict-preference test, spelled out propositionally. -/
theorem bedPreferred_true_iff (w1 w2 w3 : ℚ) (a b : CandidateHospital) :
    bedPreferred w1 w2 w3 a b = true ↔
      (bedScore w1 w2 w3 a < bedScore w1 w2 w3 b ∨
        (bedScore w1 w2 w3 a = bedScore w1 w2 w3 b ∧ a.id < b.id)) := by
  simp [bedPreferred]

/-- Negation of the strict-preference test. -/
theorem bedPreferred_false_iff (w1 w2 w3 : ℚ) (a b : CandidateHospital) :
    bedPreferred w1 w2 w3 a b = false ↔
      ¬(bedScore w1 w2 w3 a < bedScore w1 w2 w3 b ∨
        (bedScore w1 w2 w3 a = bedScore w1 w2 w3 b ∧ a.id < b.id)) := by
  rw [Bool.eq_false_iff, Ne, bedPreferred_true_iff]

/-- No candidate is strictly preferred over itself. -/
theorem bedPreferred_irrefl (w1 w2 w3 : ℚ) (a : CandidateHospital) :
    bedPreferred w1 w2 w3 a a = false := by
  rw [bedPreferred_false_iff]
  simp

/-- Non-preference is transitive: if `y` does not beat `acc` and `acc` does
not beat `res`, then `y` does not beat `res`. -/
theorem bedPreferred_false_trans (w1 w2 w3 : ℚ)
    (y acc res : CandidateHospital)
    (h1 : bedPreferred w1 w2 w3 y acc = false)
    (h2 : bedPreferred w1 w2 w3 acc res = false) :
    bedPreferred w1 w2 w3 y res = false := by
  rw [bedPreferred_false_iff] at h1 h2 ⊢
  push_neg at h1 h2 ⊢
  refine ⟨h2.1.trans h1.1, fun heq => ?_⟩
  have hacc_res : bedScore w1 w2 w3 acc = bedScore w1 w2 w3 res := by
    refine le_antisymm ?_ h2.1
    rw [← heq]
    exact h1.1
  have hy_acc : bedScore w1 w2 w3 y = bedScore w1 w2 w3 acc :=
    heq.trans hacc_res.symm
  exact (h2.2 (hy_acc ▸ hacc_res)).trans (h1.2 hy_acc)

/-- If `y` beats `acc` but does not beat `res`, then `acc` does not beat
`res` either. -/
theorem bedPreferred_true_false_trans (w1 w2 w3 : ℚ)
    (y acc res : CandidateHospital)
    (h1 : bedPreferred w1 w2 w3 y acc = true)
    (h2 : bedPreferred w1 w2 w3 y res = false) :
    bedPreferred w1 w2 w3 acc res = false := by
  rw [bedPreferred_true_iff] at h1
  rw [bedPreferred_false_iff] at h2 ⊢
  push_neg at h2 ⊢
  rcases h1 with hlt | ⟨heq, hid⟩
  · refine ⟨h2.1.trans hlt.le, fun hacc_res => ?_⟩
    have : bedScore w1 w2 w3 res < bedScore w1 w2 w3 acc :=
      lt_of_le_of_lt h2.1 hlt
    rw [hacc_res] at this
    exact absurd this (lt_irrefl _)
  · refine ⟨?_, fun hacc_res => ?_⟩
    · rw [← heq]
      exact h2.1
    · have hyres : bedScore w1 w2 w3 y = bedScore w1 w2 w3 res :=
        heq.trans hacc_res
      exact ((h2.2 hyres).trans_lt hid).le

/-- The ranking scan returns either its accumulator or a list element. -/
theorem foldl_bedStep_mem (w1 w2 w3 : ℚ) :
    ∀ (l : List CandidateHospital) (acc : CandidateHospital),
      l.foldl (bedStep w1 w2 w3) acc = acc ∨
        l.foldl (bedStep w1 w2 w3) acc ∈ l := by
  intro l
  induction l with
  | nil => intro acc; exact Or.inl rfl
  | cons y l ih =>
    intro acc
    rw [List.foldl_cons]
    rcases ih (bedStep w1 w2 w3 acc y) with heq | hmem
    · rw [heq]
      unfold bedStep
      split
      · exact Or.inr (List.mem_cons_self _ _)
      · exact Or.inl rfl
    · exact Or.inr (List.mem_cons_of_mem _ hmem)

/-- No input of the ranking scan — accumulator or list element — is
strictly preferred over the result of the scan. -/
theorem foldl_bedStep_min (w1 w2 w3 : ℚ) :
    ∀ (l : List CandidateHospital) (acc x : CandidateHospital),
      (x ∈ l ∨ x = acc) →
      bedPreferred w1 w2 w3 x (l.foldl (bedStep w1 w2 w3) acc) = false := by
  intro l
  induction l with
  | nil =>
    intro acc x hx
    rcases hx with hx | rfl
    · exact absurd hx (List.not_mem_nil x)
    · exact bedPreferred_irrefl w1 w2 w3 x
  | cons y l ih =>
    intro acc x hx
    rw [List.foldl_cons]
    rcases hx with hx | rfl
    · rcases List.mem_cons.mp hx with rfl | hmem
      · by_cases hp : bedPreferred w1 w2 w3 x acc = true
        · have hstep : bedStep w1 w2 w3 acc x = x := by
            unfold bedStep
            rw [hp]
            rfl
          rw [hstep]
          exact ih x x (Or.inr rfl)
        · have hpf : bedPreferred w1 w2 w3 x acc = false :=
            Bool.eq_false_iff.mpr hp
          have hstep : bedStep w1 w2 w3 acc x = acc := by
            unfold bedStep
            rw [hpf]
            rfl
          rw [hstep]
          exact bedPreferred_false_trans w1 w2 w3 x acc _ hpf
            (ih acc acc (Or.inr rfl))
      · exact ih (bedStep w1 w2 w3 acc y) x (Or.inl hmem)
    · by_cases hp : bedPreferred w1 w2 w3 y x = true
      · have hstep : bedStep w1 w2 w3 x y = y := by
          unfold bedStep
          rw [hp]
          rfl
        rw [hstep]
        exact bedPreferred_true_false_trans w1 w2 w3 y x _ hp
          (ih y y (Or.inr rfl))
      · have hpf : bedPreferred w1 w2 w3 y x = false :=
          Bool.eq_false_iff.mpr hp
        have hstep : bedStep w1 w2 w3 x y = x := by
          unfold bedStep
          rw [hpf]
          rfl
        rw [hstep]
        exact ih x x (Or.inr rfl)

/-- Claim C8: the bed-selection function returns a member of the candidate
list that minimizes the composite score, and among equal scores the
candidate with the lexicographically smallest id — so whenever two
candidates tie on score, the smaller id wins.  Determinism across runs is
immediate because `selectBed` is a pure function of its input. -/
theorem bed_choice_deterministic :
    ∀ (w1 w2 w3 : ℚ) (l : List CandidateHospital)
      (c x : CandidateHospital),
      selectBed w1 w2 w3 l = some c → x ∈ l →
      c ∈ l ∧
      (bedScore w1 w2 w3 c < bedScore w1 w2 w3 x ∨
        (bedScore w1 w2 w3 c = bedScore w1 w2 w3 x ∧ c.id ≤ x.id)) := by
  intro w1 w2 w3 l c x hsel hx
  cases l with
  | nil => simp [selectBed] at hsel
  | cons h hs =>
    simp only [selectBed, Option.some.injEq] at hsel
    subst hsel
    constructor
    · rcases foldl_bedStep_mem w1 w2 w3 hs h with heq | hmem
      · rw [heq]
        exact List.mem_cons_self _ _
      · exact List.mem_cons_of_mem _ hmem
    · have hnp : bedPreferred w1 w2 w3 x
          (hs.foldl (bedStep w1 w2 w3) h) = false := by
        rcases List.mem_cons.mp hx with rfl | hmem
        · exact foldl_bedStep_min w1 w2 w3 hs _ _ (Or.inr rfl)
        · exact foldl_bedStep_min w1 w2 w3 hs h x (Or.inl hmem)
      rw [bedPreferred_false_iff] at hnp
      push_neg at hnp
      rcases lt_or_eq_of_le hnp.1 with hlt | heq
      · exact Or.inl hlt
      · exact Or.inr ⟨heq, hnp.2 heq.symm⟩

/-- Two candidates with equal composite score and distinct ids, for
instantiating `bed_choice_deterministic`. -/
def candA : CandidateHospital :=
  { id := "HOSP-001", distance := 1, available_beds := 2,
    capability_bonus := 0 }

/-- See `candA`. -/
def candB : CandidateHospital :=
  { id := "HOSP-002", distance := 1, available_beds := 2,
    capability_bonus := 0 }

/-- Concrete instantiation of `bed_choice_deterministic`: two equal-score
candidates, listed larger id first; the smaller id is still selected. -/
theorem bed_choice_deterministic_witness :
    selectBed 1 1 1 [candB, candA] = some candA ∧
    candB ∈ [candB, candA] ∧
    (candA ∈ [candB, candA] ∧
      (bedScore 1 1 1 candA < bedScore 1 1 1 candB ∨
        (bedScore 1 1 1 candA = bedScore 1 1 1 candB ∧
          candA.id ≤ candB.id))) := by
  have hid : candA.id < candB.id := by
    show ("HOSP-001" : String) < "HOSP-002"
    rw [String.lt_iff_toList_lt]
    decide
  have hpref : bedPreferred 1 1 1 candA candB = true :=
    (bedPreferred_true_iff 1 1 1 candA candB).mpr (Or.inr ⟨rfl, hid⟩)
  have hsel : selectBed 1 1 1 [candB, candA] = some candA := by
    show some (bedStep 1 1 1 candB candA) = some candA
    unfold bedStep
    rw [hpref]
    simp
  exact ⟨hsel, List.mem_cons_self _ _,
    bed_choice_deterministic 1 1 1 [candB, candA] candA candB hsel
      (List.mem_cons_self _ _)⟩

end HealthGuard
